import Mathlib

/-
Verification of the Harkness Helper template generator (create_template.py).

The program is a linear script that builds an eight-sheet spreadsheet
workbook with openpyxl and saves it.  We embed the workbook construction
shallowly: a worksheet records its title, its appended rows of cell
values, the per-cell style assignments made on it, its freeze-panes and
auto-filter settings, and its column-width assignments, all in the order
the script performs them.  Cell values carry the type openpyxl infers
from the Python value (every value in this script is a str, hence a
string cell).
-/

namespace HarknessTemplate

/-- Cell values as openpyxl stores them: the script only ever writes
Python `str` values, which become string cells; numeric and boolean
cells are included so that "this cell is a string cell" is a real
statement. -/
inductive CellValue where
  | s (v : String)
  | n (v : Int)
  | b (v : Bool)
deriving DecidableEq, BEq, Repr

/-- True exactly on string cells. -/
def CellValue.isStr : CellValue → Bool
  | .s _ => true
  | _ => false

/-- openpyxl `Font(...)` with the fields the script sets. -/
structure Font where
  name : String
  size : Nat
  bold : Bool
  color : String
deriving DecidableEq, BEq, Repr

/-- openpyxl `PatternFill(...)` with the fields the script sets. -/
structure PatternFill where
  start_color : String
  end_color : String
  fill_type : String
deriving DecidableEq, BEq, Repr

/-- openpyxl `Alignment(...)` with the fields the script sets. -/
structure Alignment where
  horizontal : Option String
  vertical : Option String
  wrap_text : Bool
deriving DecidableEq, BEq, Repr

/-- openpyxl `Side(...)` with the fields the script sets. -/
structure Side where
  style : String
  color : String
deriving DecidableEq, BEq, Repr

/-- openpyxl `Border(...)` with the fields the script sets. -/
structure Border where
  left : Side
  right : Side
  top : Side
  bottom : Side
deriving DecidableEq, BEq, Repr

/-- The style attributes a single cell-style assignment sets (openpyxl
sets `cell.font`, `cell.fill`, `cell.alignment`, `cell.border`
independently; `none` means the assignment leaves that attribute
untouched). -/
structure CellStyleA where
  font : Option Font := none
  fill : Option PatternFill := none
  alignment : Option Alignment := none
  border : Option Border := none
deriving DecidableEq, BEq, Repr

/-- A worksheet: its title, the rows appended to it (row 1 first), the
cell-style assignments made on it (((row, column), attributes), 1-based,
in program order), the `freeze_panes` and `auto_filter.ref` settings,
and the `column_dimensions[letter].width` assignments in program
order. -/
structure Worksheet where
  title : String
  rows : List (List CellValue)
  styles : List ((Nat × Nat) × CellStyleA)
  freeze_panes : Option String
  auto_filter_ref : Option String
  colWidths : List (String × Nat)
deriving DecidableEq, BEq, Repr

/-- A fresh worksheet with a given title and no content. -/
def Worksheet.blank (t : String) : Worksheet :=
  { title := t, rows := [], styles := [], freeze_panes := none,
    auto_filter_ref := none, colWidths := [] }

/-- `ws.append(row)`: adds the row after all existing rows. -/
def Worksheet.append (ws : Worksheet) (row : List CellValue) : Worksheet :=
  { ws with rows := ws.rows ++ [row] }

/-- `ws.column_dimensions[letter].width = w`. -/
def Worksheet.setWidth (ws : Worksheet) (letter : String) (w : Nat) : Worksheet :=
  { ws with colWidths := ws.colWidths ++ [(letter, w)] }

/-- The workbook: its worksheets in creation order. -/
structure Workbook where
  sheets : List Worksheet
deriving DecidableEq, BEq, Repr

/-- A row of Python `str` values, as openpyxl stores it: string cells. -/
def strRow (r : List String) : List CellValue := r.map CellValue.s

/-- openpyxl helper `get_column_letter` (1 -> "A", 26 -> "Z",
27 -> "AA"): repeated divmod by 26 with the zero-remainder
adjustment, written with fuel (the index itself bounds the number of
divisions) so that it is structurally recursive. -/
def colLetters : Nat → Nat → List Char
  | 0, _ => []
  | _ + 1, 0 => []
  | fuel + 1, idx =>
    let r := idx % 26
    if r = 0 then colLetters fuel (idx / 26 - 1) ++ [Char.ofNat 90]
    else colLetters fuel (idx / 26) ++ [Char.ofNat (64 + r)]

/-- openpyxl `get_column_letter(idx)` for a 1-based column index. -/
def get_column_letter (idx : Nat) : String := ⟨colLetters idx idx⟩

-- Styles (create_template.py lines 14-25)

def header_font : Font :=
  { name := "Arial", size := 11, bold := true, color := "FFFFFF" }

def header_fill : PatternFill :=
  { start_color := "4285F4", end_color := "4285F4", fill_type := "solid" }

def header_align : Alignment :=
  { horizontal := some "center", vertical := some "center", wrap_text := true }

def body_font : Font :=
  { name := "Arial", size := 10, bold := false, color := "000000" }

def body_align : Alignment :=
  { horizontal := none, vertical := some "top", wrap_text := true }

def thin_border : Border :=
  { left := { style := "thin", color := "CCCCCC" },
    right := { style := "thin", color := "CCCCCC" },
    top := { style := "thin", color := "CCCCCC" },
    bottom := { style := "thin", color := "CCCCCC" } }

/-- The four attributes `style_header` sets on each header cell. -/
def headerCellStyle : CellStyleA :=
  { font := some header_font, fill := some header_fill,
    alignment := some header_align, border := some thin_border }

/-- `style_header(ws, num_cols)` (lines 27-35): styles cells
(1,1)..(1,num_cols), freezes at A2, and sets the auto-filter reference
to the header row's column range. -/
def style_header (ws : Worksheet) (num_cols : Nat) : Worksheet :=
  let ws := (List.range num_cols).foldl
    (fun w col => { w with styles := w.styles ++ [((1, col + 1), headerCellStyle)] }) ws
  { ws with
      freeze_panes := some "A2",
      auto_filter_ref := some ("A1:" ++ get_column_letter num_cols ++ "1") }

/-- The width-setting loop `for i, w in enumerate(widths, 1):
ws.column_dimensions[get_column_letter(i)].width = w`. -/
def setWidthsEnum (ws : Worksheet) (widths : List Nat) : Worksheet :=
  (widths.enumFrom 1).foldl (fun w p => w.setWidth (get_column_letter p.1) p.2) ws

-- Tab 1: Settings (lines 41-66)

def settings_defaults : List (List String) := [
  ["mode", "group"],
  ["distribute_email", "true"],
  ["distribute_canvas", "false"],
  ["grade_scale", "0-100"],
  ["teacher_email", ""],
  ["teacher_name", ""],
  ["email_subject_template", "Harkness Discussion Report - {date}"],
  ["gemini_model", "gemini-2.0-flash"],
  ["elevenlabs_model", "scribe_v2"],
  ["canvas_course_id", ""],
  ["canvas_base_url", ""],
  ["canvas_item_type", "assignment"]]

/-- Tab 1: the workbook's active sheet retitled "Settings", with the
header row, header styling, the twelve default rows, and the two
explicit column widths. -/
def ws_settings : Worksheet :=
  let ws := Worksheet.blank "Settings"
  let ws := ws.append (strRow ["setting_key", "setting_value"])
  let ws := style_header ws 2
  let ws := settings_defaults.foldl (fun w r => w.append (strRow r)) ws
  let ws := ws.setWidth "A" 30
  ws.setWidth "B" 50

-- Tab 2: Discussions (lines 72-86)

def disc_headers : List String := [
  "status", "next_step", "date", "section", "course",
  "grade", "approved", "group_feedback",
  "canvas_assignment_id", "canvas_item_type",
  "discussion_id", "audio_file_id", "error_message",
  "created_at", "updated_at"]

def disc_widths : List Nat := [12, 30, 12, 12, 14, 8, 10, 40, 18, 14, 18, 18, 30, 18, 18]

/-- Tab 2: `wb.create_sheet("Discussions")` and its setup. -/
def ws_disc : Worksheet :=
  let ws := Worksheet.blank "Discussions"
  let ws := ws.append (strRow disc_headers)
  let ws := style_header ws disc_headers.length
  setWidthsEnum ws disc_widths

-- Tab 3: Students (lines 92-100)

def stu_headers : List String :=
  ["name", "email", "section", "course", "canvas_user_id", "student_id"]

def stu_widths : List Nat := [22, 28, 14, 14, 14, 18]

/-- Tab 3: `wb.create_sheet("Students")` and its setup. -/
def ws_stu : Worksheet :=
  let ws := Worksheet.blank "Students"
  let ws := ws.append (strRow stu_headers)
  let ws := style_header ws stu_headers.length
  setWidthsEnum ws stu_widths

-- Tab 4: Transcripts (lines 106-117)

def trans_headers : List String := [
  "discussion_id", "raw_transcript", "speaker_map", "named_transcript",
  "created_at", "updated_at"]

def trans_widths : List Nat := [18, 60, 30, 60, 18, 18]

/-- Tab 4: `wb.create_sheet("Transcripts")` and its setup. -/
def ws_trans : Worksheet :=
  let ws := Worksheet.blank "Transcripts"
  let ws := ws.append (strRow trans_headers)
  let ws := style_header ws trans_headers.length
  setWidthsEnum ws trans_widths

-- Tab 5: SpeakerMap (lines 123-131)

def sm_headers : List String :=
  ["discussion_id", "speaker_label", "suggested_name", "student_name", "confirmed"]

def sm_widths : List Nat := [18, 14, 20, 20, 10]

/-- Tab 5: `wb.create_sheet("SpeakerMap")` and its setup. -/
def ws_sm : Worksheet :=
  let ws := Worksheet.blank "SpeakerMap"
  let ws := ws.append (strRow sm_headers)
  let ws := style_header ws sm_headers.length
  setWidthsEnum ws sm_widths

-- Tab 6: StudentReports (lines 137-149)

def rep_headers : List String := [
  "student_name", "grade", "approved", "sent", "feedback",
  "discussion_id", "transcript_contributions", "participation_summary",
  "student_id", "report_id", "created_at", "updated_at"]

def rep_widths : List Nat := [20, 8, 10, 8, 40, 18, 40, 30, 18, 18, 18, 18]

/-- Tab 6: `wb.create_sheet("StudentReports")` and its setup. -/
def ws_rep : Worksheet :=
  let ws := Worksheet.blank "StudentReports"
  let ws := ws.append (strRow rep_headers)
  let ws := style_header ws rep_headers.length
  setWidthsEnum ws rep_widths

-- Tab 7: Prompts (lines 155-264)

def prompts : List (List String) := [
  ["SPEAKER_IDENTIFICATION",
   "You are analyzing the beginning of a classroom Harkness discussion recording.

Students typically introduce themselves at the start. Listen for patterns like:
- \"Hi, I\x27m [name]\"
- \"My name is [name]\"
- \"This is [name]\"
- \"[Name] here\"
- Other natural introductions

Analyze this transcript excerpt and identify which speaker label corresponds to which student name.

IMPORTANT RULES:
1. Only include speakers you can confidently identify from explicit introductions
2. If a speaker cannot be identified, map them to \"?\" instead
3. Be case-sensitive with names as they appear
4. The teacher may also speak — if identified, include them as \"Teacher\"

Return ONLY a valid JSON object mapping speaker labels to names.
Example format: \x7b\"Speaker 0\": \"Maria\", \"Speaker 1\": \"James\", \"Speaker 2\": \"Teacher\", \"Speaker 3\": \"?\"\x7d

Transcript excerpt:
{transcript}

JSON mapping:"],
  ["GROUP_FEEDBACK",
   "You are a high school teacher analyzing a Harkness discussion. You will produce exactly two paragraphs.

**PARAGRAPH 1 — Discussion Summary** (Neutral Voice)
Write in a neutral, objective, third-person voice. Provide a detailed summary of the discussion\x27s main topics and flow. Identify 2-3 \"defining moments\" — key turning points, breakthrough ideas, or significant challenges that shaped the conversation.

**PARAGRAPH 2 — Evaluative Comment** (Teacher Voice)
Write in the teacher\x27s voice, directed at the class (\"you\" plural, \"I\" for the teacher). The tone must be direct, informal, supportive, and clear. Follow this mandatory \"Critique Sandwich\" structure:

1. **The Grade**: State the grade clearly and colloquially in the first sentence. (e.g., \"This was a strong discussion, earning a solid 8.5 out of 10.\", \"This was a decent but not great start... 7/10.\")
2. **The Good**: Highlight 2-3 specific positive achievements. Credit specific students by name, linking them to their idea or contribution.
3. **The Gap**: Identify the primary weakness or area for growth.
4. **The Next Step**: Conclude with a single, clear, actionable goal for the next discussion.

**Tone alignment with grade:**
- High grade (9-10): Frame positives as \"excellent\" or \"deep\"; the gap is a \"final step\" to the next level.
- Medium grade (7-8.5): Balanced (\"solid,\" \"decent start\") with a more significant gap to work on.
- Lower grade (below 7): Honest but encouraging; clear gap with concrete next steps.

**Important:**
- If the teacher gave oral feedback during the discussion (often near the end — look for phrases like \"my evaluation,\" \"my feedback,\" or the teacher summarizing), align your evaluation with their points.
- Credit specific students by name for notable contributions.
- If the teacher intervened to guide the discussion, acknowledge this (e.g., \"I had to provide the key synthesizing question\").

Grade: {grade}

Transcript:
{transcript}

Write the two paragraphs now (summary paragraph first, then evaluative comment):"],
  ["INDIVIDUAL_FEEDBACK",
   "You are a high school teacher providing personalized feedback to {student_name} about their Harkness discussion participation. You will produce exactly two paragraphs.

**PARAGRAPH 1 — Contribution Summary** (Neutral Voice)
Write in a neutral, objective voice. Summarize what {student_name} contributed to the discussion — their main points, arguments, and how they engaged with other students\x27 ideas. Note specific moments where they advanced or redirected the conversation.

**PARAGRAPH 2 — Evaluative Comment** (Teacher Voice)
Write in the teacher\x27s voice, directed at the student (\"you\"). The tone must be direct, informal, supportive, and clear. Follow this \"Critique Sandwich\" structure:

1. **The Grade**: State the grade clearly in the first sentence.
2. **The Good**: Highlight 2-3 specific strengths from their participation, referencing actual points they made.
3. **The Gap**: Identify their primary area for growth as a discussion participant.
4. **The Next Step**: Conclude with a single, actionable goal for their next discussion.

**Tone alignment with grade:**
- High grade (9-10): \"Excellent\" contributions; the gap is a stretch goal.
- Medium grade (7-8.5): \"Solid\" participation with clear room to grow.
- Lower grade (below 7): Encouraging but honest about what\x27s missing.

**Important:**
- If the teacher gave oral feedback during the discussion (often near the end — look for phrases like \"my evaluation,\" \"my feedback,\" or the teacher summarizing), align your evaluation with their points.

Grade: {grade}

{student_name}\x27s contributions:
{contributions}

Full discussion transcript (for context):
{transcript}

Write the two paragraphs now (contribution summary first, then evaluative comment for {student_name}):"]]

/-- The wrapped, top-aligned alignment the script constructs for each
prompt-text cell (line 264). -/
def wrapTopAlign : Alignment :=
  { horizontal := none, vertical := some "top", wrap_text := true }

/-- The loop over `ws_prompts.iter_rows(min_row=2, min_col=2, max_col=2)`
(lines 262-264): sets a wrapped, top-aligned alignment on column B of
every row from 2 to the sheet's last row. -/
def applyWrapText (ws : Worksheet) : Worksheet :=
  (List.range (ws.rows.length - 1)).foldl
    (fun w i =>
      { w with styles := w.styles ++ [((i + 2, 2), { alignment := some wrapTopAlign })] })
    ws

/-- Tab 7: `wb.create_sheet("Prompts")` and its setup, including the
three default prompt rows, explicit column widths, and the wrap-text
loop over the prompt-text column. -/
def ws_prompts : Worksheet :=
  let ws := Worksheet.blank "Prompts"
  let ws := ws.append (strRow ["prompt_name", "prompt_text"])
  let ws := style_header ws 2
  let ws := prompts.foldl (fun w r => w.append (strRow r)) ws
  let ws := ws.setWidth "A" 28
  let ws := ws.setWidth "B" 100
  applyWrapText ws

-- Tab 8: Courses (lines 270-278)

def courses_headers : List String :=
  ["course_name", "canvas_course_id", "canvas_base_url", "canvas_item_type"]

def courses_widths : List Nat := [24, 18, 36, 14]

/-- Tab 8: `wb.create_sheet("Courses")` and its setup. -/
def ws_courses : Worksheet :=
  let ws := Worksheet.blank "Courses"
  let ws := ws.append (strRow courses_headers)
  let ws := style_header ws courses_headers.length
  setWidthsEnum ws courses_widths

-- The workbook

/-- The whole workbook: `openpyxl.Workbook()` starts with one active
sheet (retitled "Settings"); each `wb.create_sheet(name)` appends a
sheet, in the order the script runs. -/
def wb : Workbook :=
  { sheets := [ws_settings, ws_disc, ws_stu, ws_trans, ws_sm, ws_rep, ws_prompts, ws_courses] }

-- Observation helpers used to state the claims

/-- The sheet of the workbook with the given title, if any (first match). -/
def sheetOf (w : Workbook) (t : String) : Option Worksheet :=
  w.sheets.find? (fun ws => ws.title == t)

/-- A sheet's header row (row 1). -/
def Worksheet.headerRow (ws : Worksheet) : List CellValue := ws.rows.headD []

/-- A named sheet's header row. -/
def headerRowOf (w : Workbook) (t : String) : Option (List CellValue) :=
  (sheetOf w t).map Worksheet.headerRow

/-- A named sheet's data rows (rows 2 onward). -/
def dataRowsOf (w : Workbook) (t : String) : Option (List (List CellValue)) :=
  (sheetOf w t).map (fun ws => ws.rows.drop 1)

/-- The value of the cell at 1-based (row, column) of a named sheet. -/
def cellValueAt (w : Workbook) (t : String) (r c : Nat) : Option CellValue :=
  (sheetOf w t).bind (fun ws => (ws.rows.get? (r - 1)).bind (fun row => row.get? (c - 1)))

/-- The string content of the cell at 1-based (row, column) of a named
sheet, when that cell is a string cell. -/
def cellStrAt (w : Workbook) (t : String) (r c : Nat) : Option String :=
  (cellValueAt w t r c).bind (fun v => match v with | .s x => some x | _ => none)

/-- Whether the pattern is a prefix of the character list. -/
def leadsWith : List Char → List Char → Bool
  | [], _ => true
  | _ :: _, [] => false
  | a :: as, b :: bs => a == b && leadsWith as bs

/-- Whether the pattern occurs as a contiguous sublist. -/
def hasSubList (pat : List Char) : List Char → Bool
  | [] => leadsWith pat []
  | b :: bs => leadsWith pat (b :: bs) || hasSubList pat bs

/-- Whether `pat` occurs as a substring of `s`. -/
def containsTok (s pat : String) : Bool := hasSubList pat.data s.data

/-- Left-to-right scan collecting, for each opening brace, the characters
up to the next closing brace (the reading a naive placeholder
substitution engine would use; character codes 123 and 125 are the
braces). -/
def braceScan : List Char → Option (List Char) → List (List Char)
  | [], _ => []
  | c :: cs, none =>
    if c == Char.ofNat 123 then braceScan cs (some []) else braceScan cs none
  | c :: cs, some acc =>
    if c == Char.ofNat 125 then acc :: braceScan cs none
    else braceScan cs (some (acc ++ [c]))

/-- The brace-delimited spans of a string, in order, without the braces. -/
def braceSpans (s : String) : List String :=
  (braceScan s.data none).map (fun l => ⟨l⟩)

/-- The placeholder tokens the spec documents for the prompt templates. -/
def documentedPlaceholders : List String :=
  ["transcript", "grade", "student_name", "contributions"]

-- Save and process exit (lines 284-286)

/-- Modelled from the spec: `wb.save(output_path)` (line 285) calls into
the openpyxl library, whose code is not part of this repository; per the
spec it fails with an I/O error exactly when the output path is not
writable, and that is the only error condition.  Writability of the
path is the model's one parameter. -/
def save (writable : Bool) (w : Workbook) : Except String Workbook :=
  if writable then Except.ok w else Except.error "I/O error: output path not writable"

/-- Modelled from the spec: a whole process run.  Workbook construction
(everything before the save) is the total function `wb`; the result is
the process exit status (0 on a successful save, 1 on a failed one,
where the spec only requires non-zero) together with the saved workbook
when the save succeeded. -/
def runProcess (writable : Bool) : Nat × Option Workbook :=
  match save writable wb with
  | Except.ok w => (0, some w)
  | Except.error _ => (1, none)

/-- The generator run as a function of its input; the program reads no
arguments, environment, or files, so the input type is `Unit`. -/
def runGenerator (_ : Unit) : Workbook := wb

-- Predicates for the addSheet discipline (claim C6)

/-- The cells that received the full header style profile (font, fill,
alignment and border of `style_header`), in assignment order. -/
def headerStyledCells (ws : Worksheet) : List (Nat × Nat) :=
  (ws.styles.filter (fun p => p.2 == headerCellStyle)).map Prod.fst

/-- One sheet follows the addSheet discipline of the spec: it has a
header row; panes are frozen at A2; the auto-filter reference is exactly
the header row's column range; the header style profile was applied to
exactly the first `headerRow.length` cells of row 1; every other style
assignment is on rows 2 and below; and the column-width assignments are
positional, one per header column in order. -/
def followsAddSheet (ws : Worksheet) : Bool :=
  let hc := ws.headerRow.length
  !ws.rows.isEmpty &&
  ws.freeze_panes == some "A2" &&
  ws.auto_filter_ref == some ("A1:" ++ get_column_letter hc ++ "1") &&
  headerStyledCells ws == (List.range hc).map (fun c => (1, c + 1)) &&
  ws.styles.all (fun p => p.2 == headerCellStyle || Nat.ble 2 p.1.1) &&
  ws.colWidths.map Prod.fst == (List.range hc).map (fun i => get_column_letter (i + 1)) &&
  Nat.beq ws.colWidths.length hc

/-- The value recorded for a setting key in the Settings defaults. -/
def settingValue (k : String) : Option String :=
  (settings_defaults.find? (fun r => r.headD "" == k)).map (fun r => r.getD 1 "")

-- Theorems

/-- C1: for every one of the eight sheets, the header row (row 1)
equals, value for value and in order, the header list given for that
sheet in spec section 6. -/
theorem C1_header_rows :
    headerRowOf wb "Settings" = some (strRow ["setting_key", "setting_value"]) ∧
    headerRowOf wb "Discussions" = some (strRow
      ["status", "next_step", "date", "section", "course",
       "grade", "approved", "group_feedback",
       "canvas_assignment_id", "canvas_item_type",
       "discussion_id", "audio_file_id", "error_message",
       "created_at", "updated_at"]) ∧
    headerRowOf wb "Students" = some (strRow
      ["name", "email", "section", "course", "canvas_user_id", "student_id"]) ∧
    headerRowOf wb "Transcripts" = some (strRow
      ["discussion_id", "raw_transcript", "speaker_map", "named_transcript",
       "created_at", "updated_at"]) ∧
    headerRowOf wb "SpeakerMap" = some (strRow
      ["discussion_id", "speaker_label", "suggested_name", "student_name", "confirmed"]) ∧
    headerRowOf wb "StudentReports" = some (strRow
      ["student_name", "grade", "approved", "sent", "feedback",
       "discussion_id", "transcript_contributions", "participation_summary",
       "student_id", "report_id", "created_at", "updated_at"]) ∧
    headerRowOf wb "Prompts" = some (strRow ["prompt_name", "prompt_text"]) ∧
    headerRowOf wb "Courses" = some (strRow
      ["course_name", "canvas_course_id", "canvas_base_url", "canvas_item_type"]) := by
  decide

/-- C2: the workbook contains exactly eight sheets, each name occurring
exactly once, in the order Settings, Discussions, Students, Transcripts,
SpeakerMap, StudentReports, Prompts, Courses. -/
theorem C2_sheet_names :
    wb.sheets.map Worksheet.title =
      ["Settings", "Discussions", "Students", "Transcripts",
       "SpeakerMap", "StudentReports", "Prompts", "Courses"] ∧
    (wb.sheets.map Worksheet.title).Nodup ∧
    (["Settings", "Discussions", "Students", "Transcripts",
      "SpeakerMap", "StudentReports", "Prompts", "Courses"].all
        (fun t => Nat.beq ((wb.sheets.map Worksheet.title).count t) 1)) = true := by
  decide

/-- C3: in the Settings sheet, rows 2 through 13 equal exactly the
twelve default key/value pairs in order, the email subject template's
value contains the placeholder token date in braces, and row 2 is
mode/group. -/
theorem C3_settings_rows :
    dataRowsOf wb "Settings" = some (List.map strRow
      [["mode", "group"],
       ["distribute_email", "true"],
       ["distribute_canvas", "false"],
       ["grade_scale", "0-100"],
       ["teacher_email", ""],
       ["teacher_name", ""],
       ["email_subject_template", "Harkness Discussion Report - {date}"],
       ["gemini_model", "gemini-2.0-flash"],
       ["elevenlabs_model", "scribe_v2"],
       ["canvas_course_id", ""],
       ["canvas_base_url", ""],
       ["canvas_item_type", "assignment"]]) ∧
    cellValueAt wb "Settings" 2 1 = some (CellValue.s "mode") ∧
    cellValueAt wb "Settings" 2 2 = some (CellValue.s "group") ∧
    (cellStrAt wb "Settings" 8 2).map (fun t => containsTok t "{date}") = some true := by
  decide

set_option maxRecDepth 100000 in
/-- C4: the Prompts sheet's rows 2 through 4 contain exactly the three
named prompts SPEAKER_IDENTIFICATION, GROUP_FEEDBACK and
INDIVIDUAL_FEEDBACK, and each prompt's text contains its required
placeholder tokens. -/
theorem C4_prompt_rows :
    (dataRowsOf wb "Prompts").map List.length = some 3 ∧
    cellValueAt wb "Prompts" 2 1 = some (CellValue.s "SPEAKER_IDENTIFICATION") ∧
    cellValueAt wb "Prompts" 3 1 = some (CellValue.s "GROUP_FEEDBACK") ∧
    cellValueAt wb "Prompts" 4 1 = some (CellValue.s "INDIVIDUAL_FEEDBACK") ∧
    (cellStrAt wb "Prompts" 2 2).map (fun t => containsTok t "{transcript}") = some true ∧
    (cellStrAt wb "Prompts" 3 2).map
      (fun t => containsTok t "{grade}" && containsTok t "{transcript}") = some true ∧
    (cellStrAt wb "Prompts" 4 2).map
      (fun t => containsTok t "{student_name}" && containsTok t "{grade}" &&
        containsTok t "{contributions}" && containsTok t "{transcript}") = some true := by
  decide

/-- C5: every default data row has exactly as many values as its sheet
has header columns; Settings has 12 default rows of 2 values, Prompts
has 3 default rows of 2 values, and the other six sheets have none. -/
theorem C5_row_width_invariant :
    wb.sheets.all
      (fun ws => (ws.rows.drop 1).all (fun r => Nat.beq r.length ws.headerRow.length)) = true ∧
    (dataRowsOf wb "Settings").map
      (fun rs => (rs.length, rs.all (fun r => Nat.beq r.length 2))) = some (12, true) ∧
    (dataRowsOf wb "Prompts").map
      (fun rs => (rs.length, rs.all (fun r => Nat.beq r.length 2))) = some (3, true) ∧
    (["Discussions", "Students", "Transcripts", "SpeakerMap", "StudentReports",
      "Courses"].all (fun t => (dataRowsOf wb t).map List.length == some 0)) = true := by
  decide

/-- C6: every sheet follows the addSheet discipline: header row at
row 1, header style profile on exactly the first header-count cells of
row 1, freeze panes at A2, auto-filter over exactly the header row's
column range, and positional column widths, one per header column. -/
theorem C6_add_sheet_discipline :
    wb.sheets.all followsAddSheet = true := by
  decide

/-- C7: the generator is deterministic over its cell content: it takes
no input, and any two runs produce workbooks with identical sheet order
and identical cell values (indeed identical workbooks). -/
theorem C7_deterministic :
    ∀ u v : Unit,
      (runGenerator u).sheets.map Worksheet.title =
        (runGenerator v).sheets.map Worksheet.title ∧
      (runGenerator u).sheets.map Worksheet.rows =
        (runGenerator v).sheets.map Worksheet.rows ∧
      runGenerator u = runGenerator v :=
  fun _ _ => ⟨rfl, rfl, rfl⟩

/-- C8: in the spec-modelled run, a writable path yields exit status 0
with the workbook saved, an unwritable path yields a non-zero exit
status with no output, and nothing before the save can fail: the run's
outcome is fully determined by writability. -/
theorem C8_save_only_error :
    runProcess true = (0, some wb) ∧
    runProcess false = (1, none) ∧
    ∀ b, runProcess b = if b then (0, some wb) else (1, none) :=
  ⟨rfl, rfl, fun b => by cases b <;> rfl⟩

set_option maxRecDepth 100000 in
/-- C9: the SPEAKER_IDENTIFICATION prompt text's brace-delimited spans
are the literal JSON example object's content followed by transcript, so
the first span is not a documented placeholder token and a consumer
substituting every brace-delimited span would alter text other than the
transcript placeholder. -/
theorem C9_brace_spans :
    (cellStrAt wb "Prompts" 2 2).map braceSpans = some
      ["\"Speaker 0\": \"Maria\", \"Speaker 1\": \"James\", \"Speaker 2\": \"Teacher\", \"Speaker 3\": \"?\"",
       "transcript"] ∧
    documentedPlaceholders.contains
      "\"Speaker 0\": \"Maria\", \"Speaker 1\": \"James\", \"Speaker 2\": \"Teacher\", \"Speaker 3\": \"?\"" = false := by
  decide

/-- C10: in the Settings defaults, teacher_email, teacher_name,
canvas_course_id and canvas_base_url all have the empty string as value,
and every default cell of the Settings sheet is a string cell. -/
theorem C10_settings_value_types :
    settingValue "teacher_email" = some "" ∧
    settingValue "teacher_name" = some "" ∧
    settingValue "canvas_course_id" = some "" ∧
    settingValue "canvas_base_url" = some "" ∧
    (dataRowsOf wb "Settings").map
      (fun rs => rs.all (fun r => r.all CellValue.isStr)) = some true := by
  decide

end HarknessTemplate
